import Mathlib

/-!
Shallow embedding of `src/capabilities/core.py` (the `capabilities` package):
a client-side capability layer with retry/backoff, dual sync/async execution,
schema flattening and structured-response coercion.

Transport (HTTP POST + JSON decode) is modelled as an oracle
`Nat → Option JValue`: the `n`-th network attempt either yields a decoded
response (`some v`) or fails (`none`, covering network errors and undecodable
bodies, which the source treats identically via a bare `except:`).
-/

/-- Decoded JSON-like values (the result of `resp.json()`). -/
inductive JValue where
  | str (s : String)
  | num (n : Int)
  | bool (b : Bool)
  | arr (xs : List JValue)
  | obj (fields : List (String × JValue))
  | null
deriving Repr

/-- Observable events of one asynchronous invocation: network post attempts,
posts attempted on an already-closed `aiohttp` session (which raise before
reaching the network), backoff sleeps, and session lifecycle events. -/
inductive Event where
  | postAttempt
  | closedPost
  | sleep (duration : Nat)
  | sessionCreated
  | sessionClosed
deriving Repr, DecidableEq

def Event.isAttempt : Event → Bool
  | .postAttempt => true
  | .closedPost => true
  | _ => false

def Event.isCreated : Event → Bool
  | .sessionCreated => true
  | _ => false

def Event.isClosed : Event → Bool
  | .sessionClosed => true
  | _ => false

/-- Trace of a synchronous `__call__`: how many transport attempts ran, the
backoff sleeps in order, and the final outcome (`.error` models a raised
exception). -/
structure SyncTrace where
  attempts : Nat
  sleeps : List Nat
  outcome : Except String JValue
deriving Repr

/-- Trace of an asynchronous `run_async`: the event log, the index of the next
unused network attempt, and the final outcome. -/
structure AsyncTrace where
  events : List Event
  netNext : Nat
  outcome : Except String JValue
deriving Repr

/-- The retry loop shared by `DocumentQA.__call__` and `Summarize.__call__`:
`patience = 8; count = 0; while count < patience: try post/except sleep(2.0**count); count += 1`,
then `raise Exception("[<name>] failed after hitting max retries")`.
`fuel` is `patience - count`; the sleep happens after every failed attempt,
including the last one before the terminal raise, exactly as in the source. -/
def runSync (transport : Nat → Option JValue) (name : String) :
    Nat → Nat → SyncTrace
  | 0, _count => ⟨0, [], .error ("[" ++ name ++ "] failed after hitting max retries")⟩
  | fuel + 1, count =>
    match transport count with
    | some v => ⟨1, [], .ok v⟩
    | none =>
      let rest := runSync transport name fuel (count + 1)
      ⟨rest.attempts + 1, 2 ^ count :: rest.sleeps, rest.outcome⟩

/-- The `while count < patience` loop of `run_async` in the case where the
local `session` variable is bound to a session object (`session is None` is
false). If the session is open, each iteration performs a real network post
(consuming one transport index); if it is closed, `session.post` raises
immediately without touching the network. Failures sleep `2 ** count` and
retry, as in the source. -/
def runAsyncWith (transport : Nat → Option JValue) (name : String) (sessOpen : Bool) :
    Nat → Nat → Nat → AsyncTrace
  | 0, _count, netIdx =>
    ⟨[], netIdx, .error ("[" ++ name ++ "] failed after hitting max retries")⟩
  | fuel + 1, count, netIdx =>
    if sessOpen then
      match transport netIdx with
      | some v => ⟨[.postAttempt], netIdx + 1, .ok v⟩
      | none =>
        let rest := runAsyncWith transport name sessOpen fuel (count + 1) (netIdx + 1)
        ⟨.postAttempt :: .sleep (2 ^ count) :: rest.events, rest.netNext, rest.outcome⟩
    else
      let rest := runAsyncWith transport name sessOpen fuel (count + 1) netIdx
      ⟨.closedPost :: .sleep (2 ^ count) :: rest.events, rest.netNext, rest.outcome⟩

/-- Embedding of `run_async` of `DocumentQA`/`Summarize`. With a caller-supplied session the
loop posts on it directly. With `session=None`, the first iteration enters
`async with aiohttp.ClientSession(...) as session:` and recursively re-enters
`run_async` with the fresh session (a fresh inner loop with its own
`count = 0, patience = 8`). Leaving the `async with` closes the created
session on both the return path and the exception path. On the exception
path the outer `except:` then sleeps `2**0`, sets `count = 1`, and the outer
loop continues — but the local `session` now holds the closed session object,
so the remaining 7 iterations post on a closed session. -/
def runAsync (transport : Nat → Option JValue) (name : String)
    (session : Option Bool) : AsyncTrace :=
  match session with
  | some sessOpen => runAsyncWith transport name sessOpen 8 0 0
  | none =>
    let inner := runAsyncWith transport name true 8 0 0
    match inner.outcome with
    | .ok v => ⟨.sessionCreated :: inner.events ++ [.sessionClosed], inner.netNext, .ok v⟩
    | .error _ =>
      let rest := runAsyncWith transport name false 7 1 inner.netNext
      ⟨.sessionCreated :: inner.events ++ .sessionClosed :: .sleep 1 :: rest.events,
        rest.netNext, rest.outcome⟩

/-- Number of post attempts (network posts plus posts on a closed session)
recorded in an async trace. -/
def attemptCount (t : AsyncTrace) : Nat :=
  t.events.countP (fun e => e.isAttempt)

/-- Payload built by `DocumentQA.__call__`: `{"document": ..., "query": ...}`. -/
def documentQA_payload_sync (document query : String) : List (String × JValue) :=
  [("document", .str document), ("query", .str query)]

/-- Payload built by `DocumentQA.run_async` (identical fields). -/
def documentQA_payload_async (document query : String) : List (String × JValue) :=
  [("document", .str document), ("query", .str query)]

def documentQA_url : String := "https://api.multi.dev/documentqa"

/-- Embedding of `DocumentQA.__call__`: posts the payload to the fixed endpoint inside the
8-attempt retry loop. The transport oracle is indexed by the payload it is
given and the attempt number. -/
def DocumentQA_call (document query : String)
    (transport : List (String × JValue) → Nat → Option JValue) : SyncTrace :=
  runSync (transport (documentQA_payload_sync document query)) "DocumentQA" 8 0

/-- Embedding of `DocumentQA.run_async`: same payload and endpoint, same retry loop, with
the session handling of `runAsync`. -/
def DocumentQA_runAsync (document query : String)
    (transport : List (String × JValue) → Nat → Option JValue)
    (session : Option Bool) : AsyncTrace :=
  runAsync (transport (documentQA_payload_async document query)) "DocumentQA" session

/-- Payload built by `Summarize.__call__`: `{"document": ...}`. -/
def summarize_payload_sync (document : String) : List (String × JValue) :=
  [("document", .str document)]

/-- Payload built by `Summarize.run_async` (identical field). -/
def summarize_payload_async (document : String) : List (String × JValue) :=
  [("document", .str document)]

def summarize_url : String := "https://api.multi.dev/summarize"

/-- Embedding of `Summarize.__call__`: 8-attempt retry loop over the fixed endpoint. -/
def Summarize_call (document : String)
    (transport : List (String × JValue) → Nat → Option JValue) : SyncTrace :=
  runSync (transport (summarize_payload_sync document)) "Summarize" 8 0

/-- Embedding of `Summarize.run_async`: same loop with session handling. -/
def Summarize_runAsync (document : String)
    (transport : List (String × JValue) → Nat → Option JValue)
    (session : Option Bool) : AsyncTrace :=
  runAsync (transport (summarize_payload_async document)) "Summarize" session

/-!
## Schema flattening (`flatten_model`) and the Structured capability
-/

/-- A Python type usable as a schema: the primitive scalars, `List[T]`,
record types (pydantic `ModelMetaclass` or dataclasses, with `__annotations__`
listing fields in declaration order), or any other type (carrying its printed
name), which `flatten_model` rejects. -/
inductive SchemaType where
  | string
  | bool
  | float
  | int
  | list (t : SchemaType)
  | record (fields : List (String × SchemaType))
  | other (name : String)
deriving Repr

/-- The serializable field-type map `flatten_model` produces: a fixed string
tag for scalars, a one-element list `[flatten(T)]` for `List[T]`, and a
field-name → flattened-type map for records. -/
inductive FlatValue where
  | tag (s : String)
  | one (v : FlatValue)
  | fields (fs : List (String × FlatValue))
deriving Repr

mutual

/-- The function `flatten_model` from the source: `List[T] ↦ [flatten_model(T)]`; record
types map each annotated field to its flattened type; `str`/`bool`/`float`/`int`
map to the tags `"string"`/`"bool"`/`"float"`/`"int"`; anything else raises
`Exception(f"unsupported datatype={m}")`. -/
def flatten_model : SchemaType → Except String FlatValue
  | .list t => Except.map .one (flatten_model t)
  | .record fs => Except.map .fields (flatten_fields fs)
  | .string => .ok (.tag "string")
  | .bool => .ok (.tag "bool")
  | .float => .ok (.tag "float")
  | .int => .ok (.tag "int")
  | .other n => .error ("unsupported datatype=" ++ n)

/-- The dict comprehension `{k: flatten_model(v) for k, v in m.__annotations__.items()}`:
flattens each field in order; the first unsupported field type aborts the whole
comprehension with the exception (no partial output). -/
def flatten_fields : List (String × SchemaType) → Except String (List (String × FlatValue))
  | [] => .ok []
  | (k, t) :: rest =>
    match flatten_model t with
    | .error e => .error e
    | .ok v =>
      match flatten_fields rest with
      | .error e => .error e
      | .ok vs => .ok ((k, v) :: vs)

end

/-- Element-wise traversal of a JSON sequence with a fallible coercion,
stopping at the first failure. -/
def listMapExcept (f : JValue → Except String JValue) :
    List JValue → Except String (List JValue)
  | [] => .ok []
  | x :: xs =>
    match f x with
    | .error e => .error e
    | .ok cx =>
      match listMapExcept f xs with
      | .error e => .error e
      | .ok cxs => .ok (cx :: cxs)

mutual

/-- Modelled from the spec: the coercion `output_spec.parse_obj(result)`
performed by pydantic when `output_spec` is a `ModelMetaclass` lives in the
external pydantic library, not in this repository. Per §4.4 it is a strict
field-by-field parse/validate: a required field that is absent or mis-typed
raises a `CoercionError`, and nested records and sequences of records are
handled recursively. -/
def coerce_strict : SchemaType → JValue → Except String JValue
  | .string, v =>
    match v with
    | .str s => .ok (.str s)
    | _ => .error "CoercionError"
  | .bool, v =>
    match v with
    | .bool b => .ok (.bool b)
    | _ => .error "CoercionError"
  | .int, v =>
    match v with
    | .num n => .ok (.num n)
    | _ => .error "CoercionError"
  | .float, v =>
    match v with
    | .num n => .ok (.num n)
    | _ => .error "CoercionError"
  | .record fs, v =>
    match v with
    | .obj o => Except.map .obj (coerce_strict_fields fs o)
    | _ => .error "CoercionError"
  | .list t, v =>
    match v with
    | .arr xs => Except.map .arr (listMapExcept (coerce_strict t) xs)
    | _ => .error "CoercionError"
  | .other _, _ => .error "CoercionError"

/-- Modelled from the spec: strict validation of each declared field against
the raw object; a missing required field fails the whole coercion. -/
def coerce_strict_fields :
    List (String × SchemaType) → List (String × JValue) → Except String (List (String × JValue))
  | [], _ => .ok []
  | (k, t) :: rest, o =>
    match o.lookup k with
    | none => .error ("CoercionError: missing field " ++ k)
    | some v =>
      match coerce_strict t v with
      | .error e => .error e
      | .ok cv =>
        match coerce_strict_fields rest o with
        | .error e => .error e
        | .ok crest => .ok ((k, cv) :: crest)

end

mutual

/-- Modelled from the spec: the coercion `dacite.from_dict(output_spec, result)`
used when `output_spec` is a plain dataclass lives in the external dacite
library. Per §4.4 it is structural field-by-field assignment by name, without
the stricter validation path, recursing into nested records and sequences of
records. -/
def coerce_structural : SchemaType → JValue → Except String JValue
  | .record fs, v =>
    match v with
    | .obj o => Except.map .obj (coerce_structural_fields fs o)
    | w => .ok w
  | .list t, v =>
    match v with
    | .arr xs => Except.map .arr (listMapExcept (coerce_structural t) xs)
    | w => .ok w
  | _, v => .ok v

/-- Modelled from the spec: structural assignment by field name; fields absent
from the raw object are skipped rather than failing validation. -/
def coerce_structural_fields :
    List (String × SchemaType) → List (String × JValue) → Except String (List (String × JValue))
  | [], _ => .ok []
  | (k, t) :: rest, o =>
    match o.lookup k with
    | none => coerce_structural_fields rest o
    | some v =>
      match coerce_structural t v with
      | .error e => .error e
      | .ok cv =>
        match coerce_structural_fields rest o with
        | .error e => .error e
        | .ok crest => .ok ((k, cv) :: crest)

end

/-- An entry of the Structured request payload: a flattened spec, free text,
or a serialized record. -/
inductive PayloadItem where
  | flat (v : FlatValue)
  | str (s : String)
  | json (v : JValue)
deriving Repr

/-- The payload `Structured.__call__` builds:
`dict(input_spec=..., output_spec=..., instructions=..., input=...)`,
in that key order. Building it runs `flatten_model` on both specs, so an
unsupported schema type raises here, before any request is sent. -/
def structured_payload_sync (input_spec output_spec : SchemaType)
    (instructions : String) (input : JValue) :
    Except String (List (String × PayloadItem)) :=
  match flatten_model input_spec with
  | .error e => .error e
  | .ok is =>
    match flatten_model output_spec with
    | .error e => .error e
    | .ok os =>
      .ok [("input_spec", .flat is), ("output_spec", .flat os),
           ("instructions", .str instructions), ("input", .json input)]

/-- The payload `Structured.run_async` builds: same four entries, but with key
order `input_spec, output_spec, input, instructions`. -/
def structured_payload_async (input_spec output_spec : SchemaType)
    (instructions : String) (input : JValue) :
    Except String (List (String × PayloadItem)) :=
  match flatten_model input_spec with
  | .error e => .error e
  | .ok is =>
    match flatten_model output_spec with
    | .error e => .error e
    | .ok os =>
      .ok [("input_spec", .flat is), ("output_spec", .flat os),
           ("input", .json input), ("instructions", .str instructions)]

def structured_url : String := "https://api.multi.dev/structured"

/-- Embedding of `r.json()["output"]`: extract the `output` field of the decoded response;
a non-object response or a missing key raises. -/
def JValue.getOutput : JValue → Except String JValue
  | .obj fs =>
    match fs.lookup "output" with
    | some v => .ok v
    | none => .error "KeyError: output"
  | _ => .error "TypeError: response is not a dict"

/-- Embedding of `Structured.__call__`: builds the payload (flattening both specs), performs
a single post with no retry loop, extracts the response field `output` and
coerces it into the declared output shape — `parse_obj` when `output_spec` is
a `ModelMetaclass` (`modelStyle = true`), `dacite.from_dict` otherwise.
The transport oracle maps the payload to the decoded response of the single
attempt (`none` = transport failure, which propagates uncaught). -/
def Structured_call (input_spec output_spec : SchemaType) (modelStyle : Bool)
    (instructions : String) (input : JValue)
    (transport : List (String × PayloadItem) → Option JValue) : SyncTrace :=
  match structured_payload_sync input_spec output_spec instructions input with
  | .error e => ⟨0, [], .error e⟩
  | .ok payload =>
    match transport payload with
    | none => ⟨1, [], .error "TransportError"⟩
    | some resp =>
      ⟨1, [],
        match resp.getOutput with
        | .error e => .error e
        | .ok raw =>
          if modelStyle then coerce_strict output_spec raw
          else coerce_structural output_spec raw⟩

/-- Embedding of `Structured.run_async`: identical extraction and coercion, async payload
key order, one post, no retry; with `session=None` a session is created by
`async with` and closed on exit, otherwise the session of the caller is used. -/
def Structured_runAsync (input_spec output_spec : SchemaType) (modelStyle : Bool)
    (instructions : String) (input : JValue)
    (transport : List (String × PayloadItem) → Option JValue)
    (session : Option Bool) : List Event × Except String JValue :=
  match structured_payload_async input_spec output_spec instructions input with
  | .error e => ([], .error e)
  | .ok payload =>
    let sessionEvents : List Event × List Event :=
      match session with
      | none => ([Event.sessionCreated], [Event.sessionClosed])
      | some _ => ([], [])
    match transport payload with
    | none => (sessionEvents.1 ++ [Event.postAttempt] ++ sessionEvents.2, .error "TransportError")
    | some resp =>
      (sessionEvents.1 ++ [Event.postAttempt] ++ sessionEvents.2,
        match resp.getOutput with
        | .error e => .error e
        | .ok raw =>
          if modelStyle then coerce_strict output_spec raw
          else coerce_structural output_spec raw)

/-!
## Sql, Search, WebContent, and the capability registry
-/

def sql_url : String := "https://api.multi.dev/sql"

/-- Payload of `Sql.__call__`: `dict(query=..., sql_schema=..., sql_type=sql_variant)`. -/
def sql_payload_sync (query sql_schema sql_variant : String) : List (String × JValue) :=
  [("query", .str query), ("sql_schema", .str sql_schema), ("sql_type", .str sql_variant)]

/-- Payload of `Sql.run_async` when `session is None`: the same three fields. -/
def sql_payload_async_noSession (query sql_schema sql_variant : String) :
    List (String × JValue) :=
  [("query", .str query), ("sql_schema", .str sql_schema), ("sql_type", .str sql_variant)]

/-- Payload of `Sql.run_async` when a session is supplied:
`dict(query=query)` only — `sql_schema` and `sql_type` are not sent. -/
def sql_payload_async_withSession (query _sql_schema _sql_variant : String) :
    List (String × JValue) :=
  [("query", .str query)]

/-- Embedding of `Sql.__call__`: a single post of the payload, no retry loop; a transport
failure propagates uncaught. -/
def Sql_call (query sql_schema sql_variant : String)
    (transport : List (String × JValue) → Option JValue) : SyncTrace :=
  match transport (sql_payload_sync query sql_schema sql_variant) with
  | some r => ⟨1, [], .ok r⟩
  | none => ⟨1, [], .error "TransportError"⟩

/-- Embedding of `Sql.run_async`: one post, no retry; with `session=None` a session is
created by `async with` and closed on exit (also when the post raises); with a
caller session the truncated `dict(query=query)` payload is posted. -/
def Sql_runAsync (query sql_schema sql_variant : String)
    (transport : List (String × JValue) → Option JValue)
    (session : Option Bool) : AsyncTrace :=
  match session with
  | none =>
    match transport (sql_payload_async_noSession query sql_schema sql_variant) with
    | some r => ⟨[.sessionCreated, .postAttempt, .sessionClosed], 1, .ok r⟩
    | none => ⟨[.sessionCreated, .postAttempt, .sessionClosed], 1, .error "TransportError"⟩
  | some _ =>
    match transport (sql_payload_async_withSession query sql_schema sql_variant) with
    | some r => ⟨[.postAttempt], 1, .ok r⟩
    | none => ⟨[.postAttempt], 1, .error "TransportError"⟩

def search_url : String := "https://api.multi.dev/search"

/-- Payload of `Search.__call__`: `dict(query=query)`. -/
def search_payload_sync (query : String) : List (String × JValue) :=
  [("query", .str query)]

/-- Payload of `Search.run_async` with `session=None`: `dict(query=query)`. -/
def search_payload_async_noSession (query : String) : List (String × JValue) :=
  [("query", .str query)]

/-- Payload of `Search.run_async` with a caller session: `dict(query=query)`. -/
def search_payload_async_withSession (query : String) : List (String × JValue) :=
  [("query", .str query)]

/-- Embedding of `Search.__call__`: a single post, no retry loop. -/
def Search_call (query : String)
    (transport : List (String × JValue) → Option JValue) : SyncTrace :=
  match transport (search_payload_sync query) with
  | some r => ⟨1, [], .ok r⟩
  | none => ⟨1, [], .error "TransportError"⟩

/-- Embedding of `Search.run_async`: one post, no retry, session created and closed when
none is supplied. -/
def Search_runAsync (query : String)
    (transport : List (String × JValue) → Option JValue)
    (session : Option Bool) : AsyncTrace :=
  match session with
  | none =>
    match transport (search_payload_async_noSession query) with
    | some r => ⟨[.sessionCreated, .postAttempt, .sessionClosed], 1, .ok r⟩
    | none => ⟨[.sessionCreated, .postAttempt, .sessionClosed], 1, .error "TransportError"⟩
  | some _ =>
    match transport (search_payload_async_withSession query) with
    | some r => ⟨[.postAttempt], 1, .ok r⟩
    | none => ⟨[.postAttempt], 1, .error "TransportError"⟩

/-!
## WebContent
-/

/-- How the response body is consumed. -/
inductive BodyDecode where
  | jsonBody
  | htmlText
deriving Repr, DecidableEq

/-- Which readability extraction is applied to the returned HTML:
`Document(html).content()` (full readable article) or
`Document(html).summary()`. -/
inductive ExtractKind where
  | fullContent
  | summary
deriving Repr, DecidableEq

/-- The request WebContent issues, sync and async alike: POST to the
browserless rendering endpoint with the `BROWSERLESS_API_KEY` environment
value as a `token` query parameter, headers `Content-Type`/`Cache-Control`
(no `api-key` header), and body `{"url": ...}`. -/
structure WebRequest where
  base : String
  tokenParam : Option String
  headers : List (String × String)
  payload : List (String × JValue)
deriving Repr

def webContent_request (url : String) (browserlessKey : Option String) : WebRequest :=
  { base := "https://chrome.browserless.io/content"
    tokenParam := browserlessKey
    headers := [("Content-Type", "application/json"), ("Cache-Control", "no-cache")]
    payload := [("url", .str url)] }

/-- Trace of one WebContent invocation. The outcome records which extraction
was applied to which raw HTML (the readability library itself is an external
collaborator); `none` from the transport models a failed post/read, which
propagates uncaught (there is no retry loop). -/
structure WebTrace where
  request : WebRequest
  decode : BodyDecode
  attempts : Nat
  sleeps : List Nat
  sessionEvents : List Event
  outcome : Except String (ExtractKind × String)
deriving Repr

/-- Embedding of `WebContent.__call__`: one post to the rendering endpoint, body decoded as
UTF-8 text, `Document(...).content()` applied. -/
def WebContent_call (url : String) (browserlessKey : Option String)
    (transport : WebRequest → Option String) : WebTrace :=
  let req := webContent_request url browserlessKey
  { request := req
    decode := .htmlText
    attempts := 1
    sleeps := []
    sessionEvents := []
    outcome :=
      match transport req with
      | some html => .ok (.fullContent, html)
      | none => .error "TransportError" }

/-- Embedding of `WebContent.run_async` with a session bound: one post to the same
endpoint, body read as UTF-8 text, `Document(...).summary()` applied. -/
def WebContent_runAsyncWith (url : String) (browserlessKey : Option String)
    (transport : WebRequest → Option String) : WebTrace :=
  let req := webContent_request url browserlessKey
  { request := req
    decode := .htmlText
    attempts := 1
    sleeps := []
    sessionEvents := []
    outcome :=
      match transport req with
      | some html => .ok (.summary, html)
      | none => .error "TransportError" }

/-- Embedding of `WebContent.run_async`: with `session=None` it creates a session inside
`async with` and recursively re-enters itself with that session, so the
session is closed on exit; otherwise it posts on the session of the caller. -/
def WebContent_runAsync (url : String) (browserlessKey : Option String)
    (transport : WebRequest → Option String) (session : Option Unit) : WebTrace :=
  match session with
  | some _ => WebContent_runAsyncWith url browserlessKey transport
  | none =>
    let inner := WebContent_runAsyncWith url browserlessKey transport
    { inner with sessionEvents := .sessionCreated :: inner.sessionEvents ++ [.sessionClosed] }

/-!
## Capability registry
-/

/-- The six invoker kinds held by the `_CAPABILITIES` table. -/
inductive CapabilityKind where
  | summarize
  | documentQA
  | sql
  | search
  | structured
  | webContent
deriving Repr, DecidableEq

/-- The fixed module-level `_CAPABILITIES` dict, in source order. -/
def _CAPABILITIES : List (String × CapabilityKind) :=
  [("multi/summarize", .summarize),
   ("multi/document_qa", .documentQA),
   ("multi/sql", .sql),
   ("multi/search", .search),
   ("multi/structured", .structured),
   ("multi/web_content", .webContent)]

/-- The `Capability` dataclass: a uri and the optional bound invoker
(`_capability`, defaulting to `None`). -/
structure Capability where
  uri : String
  bound : Option CapabilityKind
deriving Repr, DecidableEq

/-- Embedding of `Capability.__post_init__`: looks the uri up in `_CAPABILITIES`; a
`KeyError` is caught, the list of valid URIs is printed, and `_capability`
stays `None`. Resolution itself never raises. Returns the constructed
reference together with the printed log lines. -/
def Capability.postInit (uri : String) : Capability × List String :=
  match _CAPABILITIES.lookup uri with
  | some c => (⟨uri, some c⟩, [])
  | none =>
    (⟨uri, none⟩,
      ("Capability lookup failed for uri=" ++ uri ++ ".\nValid URIs are:") ::
        _CAPABILITIES.map (fun kv => "  " ++ kv.1))

/-- Embedding of `Capability.__call__`: delegates to `self._capability(...)`; when nothing
is bound, Python raises a TypeError (NoneType object is not callable). -/
def Capability.call (c : Capability) : Except String CapabilityKind :=
  match c.bound with
  | some k => .ok k
  | none => .error "TypeError: NoneType object is not callable"

/-- Embedding of `Capability.run_async`: delegates to `self._capability.run_async(...)`;
when nothing is bound, Python raises an `AttributeError` on `None`. -/
def Capability.runAsyncDispatch (c : Capability) : Except String CapabilityKind :=
  match c.bound with
  | some k => .ok k
  | none => .error "AttributeError: NoneType object has no attribute run_async"

/-!
## Lemmas about the retry machinery
-/

/-- Every entry of the sleep list produced by the retry loop started at
`count` is the power of two indexed by `count` plus its position. -/
theorem runSync_sleeps_get (transport : Nat → Option JValue) (name : String) :
    ∀ (fuel count k d : Nat),
      ((runSync transport name fuel count).sleeps).get? k = some d →
      d = 2 ^ (count + k) := by
  intro fuel
  induction fuel with
  | zero => intro count k d h; simp [runSync] at h
  | succ n ih =>
    intro count k d h
    rw [runSync] at h
    cases htr : transport count with
    | some v => rw [htr] at h; simp at h
    | none =>
      rw [htr] at h
      simp only [List.get?] at h
      cases k with
      | zero =>
        simp at h
        rw [Nat.add_zero, ← h]
      | succ k =>
        have := ih (count + 1) k d h
        rw [this]
        congr 1
        omega

/-- The loop `runAsyncWith` (the loop body with a session in hand) emits no session
lifecycle events: sessions are only created and closed by the `session=None`
branch of `run_async`. -/
theorem runAsyncWith_no_lifecycle (transport : Nat → Option JValue) (name : String)
    (sessOpen : Bool) (p : Event → Bool)
    (hpost : p .postAttempt = false) (hclosed : p .closedPost = false)
    (hsleep : ∀ dur, p (.sleep dur) = false) :
    ∀ (fuel count netIdx : Nat),
      ((runAsyncWith transport name sessOpen fuel count netIdx).events).countP p = 0 := by
  intro fuel
  induction fuel with
  | zero => intro count netIdx; simp [runAsyncWith]
  | succ n ih =>
    intro count netIdx
    rw [runAsyncWith]
    cases sessOpen with
    | false =>
      simp [List.countP_cons, hclosed, hsleep, ih]
    | true =>
      cases htr : transport netIdx with
      | some v => simp [List.countP_cons, hpost]
      | none => simp [List.countP_cons, hpost, hsleep, ih]

/-- In `runAsync` with a caller-supplied session, no session is created or
closed; with `session=None`, exactly one session is created and exactly one is
closed, whatever the transport does. -/
theorem runAsync_lifecycle (transport : Nat → Option JValue) (name : String)
    (p : Event → Bool)
    (hpost : p .postAttempt = false) (hclosed : p .closedPost = false)
    (hsleep : ∀ dur, p (.sleep dur) = false) :
    (∀ sessOpen, ((runAsync transport name (some sessOpen)).events).countP p = 0) ∧
    ((runAsync transport name none).events).countP p =
      (if p .sessionCreated then 1 else 0) + (if p .sessionClosed then 1 else 0) := by
  constructor
  · intro sessOpen
    simp only [runAsync]
    exact runAsyncWith_no_lifecycle transport name sessOpen p hpost hclosed hsleep 8 0 0
  · simp only [runAsync]
    cases hout : (runAsyncWith transport name true 8 0 0).outcome with
    | ok v =>
      simp [hout, List.countP_cons, List.countP_append,
        runAsyncWith_no_lifecycle transport name true p hpost hclosed hsleep]
      split <;> split <;> simp
    | error e =>
      simp [hout, List.countP_cons, List.countP_append, hsleep,
        runAsyncWith_no_lifecycle transport name true p hpost hclosed hsleep,
        runAsyncWith_no_lifecycle transport name false p hpost hclosed hsleep]
      split <;> split <;> simp

/-!
## Claim theorems
-/

/-- C1 counterexample: with a transport that fails on every attempt, the
asynchronous entry point called without a session performs 15 post attempts,
not 8 — the recursive inner invocation exhausts its 8 network attempts, and
the outer loop then retries 7 more times on the session that the inner
`async with` already closed. -/
theorem C1_counterexample_async_noSession_15_attempts :
    attemptCount (DocumentQA_runAsync "doc" "q" (fun _ _ => none) none) = 15 ∧
    attemptCount (DocumentQA_runAsync "doc" "q" (fun _ _ => none) none) ≠ 8 ∧
    (DocumentQA_runAsync "doc" "q" (fun _ _ => none) none).outcome =
      .error "[DocumentQA] failed after hitting max retries" := by
  refine ⟨rfl, by decide, rfl⟩

/-- C1 (amended): with a transport failing on every attempt, the synchronous
entry point and the asynchronous entry point with a caller-supplied session
perform exactly 8 attempts and raise the terminal failure naming the
capability; the asynchronous entry point without a session performs 15
attempts in total (8 real network attempts by the recursively-entered inner
invocation, then 7 attempts on the closed session by the outer loop) before
raising the same terminal failure. -/
theorem C1_amended_retries_exhausted (document query : String)
    (transport : List (String × JValue) → Nat → Option JValue)
    (hfail : ∀ p n, transport p n = none) :
    ((DocumentQA_call document query transport).attempts = 8 ∧
      (DocumentQA_call document query transport).outcome =
        .error "[DocumentQA] failed after hitting max retries") ∧
    (attemptCount (DocumentQA_runAsync document query transport (some true)) = 8 ∧
      (DocumentQA_runAsync document query transport (some true)).outcome =
        .error "[DocumentQA] failed after hitting max retries") ∧
    (attemptCount (DocumentQA_runAsync document query transport none) = 15 ∧
      (DocumentQA_runAsync document query transport none).outcome =
        .error "[DocumentQA] failed after hitting max retries") ∧
    ((Summarize_call document transport).attempts = 8 ∧
      attemptCount (Summarize_runAsync document transport (some true)) = 8 ∧
      attemptCount (Summarize_runAsync document transport none) = 15) := by
  have h : transport = fun _ _ => none := funext fun p => funext fun n => hfail p n
  subst h
  exact ⟨⟨rfl, rfl⟩, ⟨rfl, rfl⟩, ⟨rfl, rfl⟩, rfl, rfl, rfl⟩

/-- Witness for the amended C1 at the concrete always-failing transport. -/
theorem C1_amended_witness :
    (DocumentQA_call "doc" "q" (fun _ _ => none)).attempts = 8 ∧
    attemptCount (DocumentQA_runAsync "doc" "q" (fun _ _ => none) none) = 15 :=
  ⟨(C1_amended_retries_exhausted "doc" "q" (fun _ _ => none) (fun _ _ => rfl)).1.1,
   (C1_amended_retries_exhausted "doc" "q" (fun _ _ => none) (fun _ _ => rfl)).2.2.1.1⟩

/-- C3: in the retry loop the k-th failed attempt (0-indexed) is followed by a
sleep of exactly `2 ^ k` time units, for any transport; over 8 failing
attempts the sleeps are 1, 2, 4, 8, 16, 32, 64, 128 and their sum is 255. -/
theorem C3_backoff_delays :
    (∀ (document query : String)
        (transport : List (String × JValue) → Nat → Option JValue) (k d : Nat),
      ((DocumentQA_call document query transport).sleeps).get? k = some d →
        d = 2 ^ k) ∧
    (∀ (document : String),
      (Summarize_call document (fun _ _ => none)).sleeps =
        [1, 2, 4, 8, 16, 32, 64, 128] ∧
      ((Summarize_call document (fun _ _ => none)).sleeps).sum = 255) := by
  constructor
  · intro document query transport k d h
    have := runSync_sleeps_get
      (transport (documentQA_payload_sync document query)) "DocumentQA" 8 0 k d h
    simpa using this
  · intro document
    exact ⟨rfl, rfl⟩

/-- Witness for C3: the sleep at index 3 of an all-failing run is `8 = 2 ^ 3`. -/
theorem C3_backoff_delays_witness :
    ((DocumentQA_call "d" "q" (fun _ _ => none)).sleeps).get? 3 = some 8 ∧
      (8 : Nat) = 2 ^ 3 :=
  ⟨rfl, C3_backoff_delays.1 "d" "q" (fun _ _ => none) 3 8 rfl⟩

/-- C4: the first successful attempt short-circuits the retry loop — if the
attempts at indices 0, 1, 2 fail and the attempt at index 3 succeeds with
response `v`, then exactly 4 attempts occur, the backoff sleeps are exactly
[1, 2, 4] (none after the success), and the call returns `v`. -/
theorem C4_first_success_short_circuits (document : String)
    (transport : List (String × JValue) → Nat → Option JValue) (v : JValue)
    (h0 : transport (summarize_payload_sync document) 0 = none)
    (h1 : transport (summarize_payload_sync document) 1 = none)
    (h2 : transport (summarize_payload_sync document) 2 = none)
    (h3 : transport (summarize_payload_sync document) 3 = some v) :
    (Summarize_call document transport).attempts = 4 ∧
    (Summarize_call document transport).sleeps = [1, 2, 4] ∧
    (Summarize_call document transport).outcome = .ok v := by
  simp only [Summarize_call]
  rw [runSync, h0, runSync, h1, runSync, h2, runSync, h3]
  exact ⟨rfl, rfl, rfl⟩

/-- Witness for C4 at a transport succeeding exactly at attempt index 3. -/
theorem C4_first_success_witness :
    (Summarize_call "d" (fun _ n => if n = 3 then some .null else none)).attempts = 4 ∧
    (Summarize_call "d" (fun _ n => if n = 3 then some .null else none)).sleeps = [1, 2, 4] ∧
    (Summarize_call "d" (fun _ n => if n = 3 then some .null else none)).outcome = .ok .null :=
  C4_first_success_short_circuits "d" (fun _ n => if n = 3 then some .null else none)
    .null rfl rfl rfl rfl

/-- C8: an asynchronous invocation given a caller-supplied session never
closes (nor creates) any session, for every transport behaviour; given no
session, it creates exactly one session of its own and closes it exactly once,
on every exit path — success at any attempt, transport failure, or retry
exhaustion. Stated for `DocumentQA.run_async` and `Summarize.run_async`. -/
theorem C8_session_ownership (document query : String)
    (transport : List (String × JValue) → Nat → Option JValue) :
    (((DocumentQA_runAsync document query transport (some true)).events).countP
        (fun e => e.isCreated) = 0 ∧
      ((DocumentQA_runAsync document query transport (some true)).events).countP
        (fun e => e.isClosed) = 0) ∧
    (((DocumentQA_runAsync document query transport none).events).countP
        (fun e => e.isCreated) = 1 ∧
      ((DocumentQA_runAsync document query transport none).events).countP
        (fun e => e.isClosed) = 1) ∧
    (((Summarize_runAsync document transport (some true)).events).countP
        (fun e => e.isCreated) = 0 ∧
      ((Summarize_runAsync document transport (some true)).events).countP
        (fun e => e.isClosed) = 0) ∧
    (((Summarize_runAsync document transport none).events).countP
        (fun e => e.isCreated) = 1 ∧
      ((Summarize_runAsync document transport none).events).countP
        (fun e => e.isClosed) = 1) := by
  have hCr := fun t n =>
    runAsync_lifecycle t n (fun e => e.isCreated) rfl rfl (fun _ => rfl)
  have hCl := fun t n =>
    runAsync_lifecycle t n (fun e => e.isClosed) rfl rfl (fun _ => rfl)
  refine ⟨⟨?_, ?_⟩, ⟨?_, ?_⟩, ⟨?_, ?_⟩, ⟨?_, ?_⟩⟩
  · exact (hCr (transport (documentQA_payload_async document query)) "DocumentQA").1 true
  · exact (hCl (transport (documentQA_payload_async document query)) "DocumentQA").1 true
  · simpa using
      (hCr (transport (documentQA_payload_async document query)) "DocumentQA").2
  · simpa using
      (hCl (transport (documentQA_payload_async document query)) "DocumentQA").2
  · exact (hCr (transport (summarize_payload_async document)) "Summarize").1 true
  · exact (hCl (transport (summarize_payload_async document)) "Summarize").1 true
  · simpa using (hCr (transport (summarize_payload_async document)) "Summarize").2
  · simpa using (hCl (transport (summarize_payload_async document)) "Summarize").2

/-- C2 counterexample: the two entry points of `Sql` do not build the same
payload from the same arguments — with a caller-supplied session,
`Sql.run_async` posts `dict(query=query)` only, omitting the `sql_schema`
and `sql_type` fields that `Sql.__call__` sends. -/
theorem C2_counterexample_sql_session_payload :
    (sql_payload_async_withSession "q" "schema" "vanilla").lookup "sql_schema" = none ∧
    (sql_payload_sync "q" "schema" "vanilla").lookup "sql_schema" =
      some (.str "schema") ∧
    (none : Option JValue) ≠ some (.str "schema") :=
  ⟨rfl, rfl, fun h => Option.noConfusion h⟩

/-- C2 (amended): both entry points of DocumentQA, Summarize and Search build
identical payloads from the same arguments; Structured builds the same payload
mapping in both entry points (same four bindings, with `input` and
`instructions` in swapped order); the asynchronous entry point of Sql with a
caller-supplied session deviates, omitting `sql_schema` and `sql_type`; and
only DocumentQA and Summarize feed the §4.1 retry loop — Sql, Search and
Structured perform a single attempt with no retries and no backoff sleeps. -/
theorem C2_amended_payloads_and_retry
    (document query sql_schema sql_variant sq : String)
    (inS outS : SchemaType) (instr : String) (inp : JValue)
    (p1 p2 : List (String × PayloadItem))
    (tr : List (String × JValue) → Option JValue)
    (trs : List (String × PayloadItem) → Option JValue)
    (mst : Bool) (session : Option Bool) :
    documentQA_payload_sync document query = documentQA_payload_async document query ∧
    summarize_payload_sync document = summarize_payload_async document ∧
    (search_payload_sync sq = search_payload_async_noSession sq ∧
      search_payload_sync sq = search_payload_async_withSession sq) ∧
    sql_payload_sync query sql_schema sql_variant =
      sql_payload_async_noSession query sql_schema sql_variant ∧
    (sql_payload_async_withSession query sql_schema sql_variant).lookup "sql_schema" =
      none ∧
    (structured_payload_sync inS outS instr inp = .ok p1 →
      structured_payload_async inS outS instr inp = .ok p2 → p1.Perm p2) ∧
    ((Sql_call query sql_schema sql_variant tr).attempts = 1 ∧
      (Sql_call query sql_schema sql_variant tr).sleeps = [] ∧
      attemptCount (Sql_runAsync query sql_schema sql_variant tr session) = 1) ∧
    ((Search_call sq tr).attempts = 1 ∧
      (Search_call sq tr).sleeps = [] ∧
      attemptCount (Search_runAsync sq tr session) = 1) ∧
    ((Structured_call inS outS mst instr inp trs).attempts ≤ 1 ∧
      (Structured_call inS outS mst instr inp trs).sleeps = []) := by
  refine ⟨rfl, rfl, ⟨rfl, rfl⟩, rfl, rfl, ?_, ?_, ?_, ?_⟩
  · intro h1 h2
    cases hIn : flatten_model inS with
    | error e =>
      rw [structured_payload_sync, hIn] at h1
      exact absurd h1 (by simp)
    | ok fi =>
      cases hOut : flatten_model outS with
      | error e =>
        rw [structured_payload_sync, hIn, hOut] at h1
        exact absurd h1 (by simp)
      | ok fo =>
        rw [structured_payload_sync, hIn, hOut] at h1
        rw [structured_payload_async, hIn, hOut] at h2
        simp at h1 h2
        rw [← h1, ← h2]
        exact .cons _ (.cons _ (.swap _ _ _))
  · cases h : tr (sql_payload_sync query sql_schema sql_variant) with
    | some r =>
      refine ⟨by simp [Sql_call, h], by simp [Sql_call, h], ?_⟩
      cases session with
      | none =>
        cases h2 : tr (sql_payload_async_noSession query sql_schema sql_variant) <;>
          simp only [Sql_runAsync, h2] <;> rfl
      | some b =>
        cases h2 : tr (sql_payload_async_withSession query sql_schema sql_variant) <;>
          simp only [Sql_runAsync, h2] <;> rfl
    | none =>
      refine ⟨by simp [Sql_call, h], by simp [Sql_call, h], ?_⟩
      cases session with
      | none =>
        cases h2 : tr (sql_payload_async_noSession query sql_schema sql_variant) <;>
          simp only [Sql_runAsync, h2] <;> rfl
      | some b =>
        cases h2 : tr (sql_payload_async_withSession query sql_schema sql_variant) <;>
          simp only [Sql_runAsync, h2] <;> rfl
  · cases h : tr (search_payload_sync sq) with
    | some r =>
      refine ⟨by simp [Search_call, h], by simp [Search_call, h], ?_⟩
      cases session with
      | none =>
        cases h2 : tr (search_payload_async_noSession sq) <;>
          simp only [Search_runAsync, h2] <;> rfl
      | some b =>
        cases h2 : tr (search_payload_async_withSession sq) <;>
          simp only [Search_runAsync, h2] <;> rfl
    | none =>
      refine ⟨by simp [Search_call, h], by simp [Search_call, h], ?_⟩
      cases session with
      | none =>
        cases h2 : tr (search_payload_async_noSession sq) <;>
          simp only [Search_runAsync, h2] <;> rfl
      | some b =>
        cases h2 : tr (search_payload_async_withSession sq) <;>
          simp only [Search_runAsync, h2] <;> rfl
  · cases hp : structured_payload_sync inS outS instr inp with
    | error e => simp [Structured_call, hp]
    | ok payload =>
      cases ht : trs payload with
      | some r => simp [Structured_call, hp, ht]
      | none => simp [Structured_call, hp, ht]

/-- Witness for the amended C2: the two Structured payload orders at a
concrete schema are permutations of each other. -/
theorem C2_amended_witness :
    ([("input_spec", PayloadItem.flat (.tag "string")),
      ("output_spec", PayloadItem.flat (.tag "int")),
      ("instructions", PayloadItem.str "extract"),
      ("input", PayloadItem.json .null)]).Perm
      [("input_spec", PayloadItem.flat (.tag "string")),
        ("output_spec", PayloadItem.flat (.tag "int")),
        ("input", PayloadItem.json .null),
        ("instructions", PayloadItem.str "extract")] :=
  (C2_amended_payloads_and_retry "d" "q" "s" "v" "sq" .string .int "extract" .null
    _ _ (fun _ => none) (fun _ => none) true none).2.2.2.2.2.1 rfl rfl

/-- C5: `flatten_model` emits the fixed tags for the primitive scalars, a
one-element list for a sequence type, and a field-name → flattened-type map
for a record, recursively; in particular the record
(name: string, age: integer, tags: sequence-of-string) flattens to
`{"name": "string", "age": "int", "tags": ["string"]}`. -/
theorem C5_flatten_model :
    flatten_model .string = .ok (.tag "string") ∧
    flatten_model .bool = .ok (.tag "bool") ∧
    flatten_model .float = .ok (.tag "float") ∧
    flatten_model .int = .ok (.tag "int") ∧
    (∀ t v, flatten_model t = .ok v → flatten_model (.list t) = .ok (.one v)) ∧
    (∀ k t rest v vs, flatten_model t = .ok v → flatten_fields rest = .ok vs →
      flatten_model (.record ((k, t) :: rest)) = .ok (.fields ((k, v) :: vs))) ∧
    flatten_model (.record [("name", .string), ("age", .int), ("tags", .list .string)]) =
      .ok (.fields
        [("name", .tag "string"), ("age", .tag "int"), ("tags", .one (.tag "string"))]) := by
  refine ⟨rfl, rfl, rfl, rfl, ?_, ?_, rfl⟩
  · intro t v h
    rw [flatten_model, h]
    rfl
  · intro k t rest v vs h1 h2
    rw [flatten_model, flatten_fields, h1, h2]
    rfl

/-- Witness for C5: the list clause applied at element type `string`. -/
theorem C5_flatten_model_witness :
    flatten_model (.list .string) = .ok (.one (.tag "string")) :=
  C5_flatten_model.2.2.2.2.1 .string (.tag "string") rfl

/-- C6: a field type outside the supported set makes `flatten_model` fail with
an error naming the offending type, with no partial output even when earlier
fields were supported; and since `Structured` flattens both specs while
building the payload, before posting, an unsupported spec raises with zero
transport attempts, no retry and no backoff. -/
theorem C6_unsupported_schema_type (n instr : String) (mst : Bool) (inp : JValue)
    (trs : List (String × PayloadItem) → Option JValue) :
    flatten_model (.other n) = .error ("unsupported datatype=" ++ n) ∧
    flatten_model (.record [("a", .string), ("b", .other n)]) =
      .error ("unsupported datatype=" ++ n) ∧
    ((Structured_call (.record [("a", .other n)]) .string mst instr inp trs).attempts = 0 ∧
      (Structured_call (.record [("a", .other n)]) .string mst instr inp trs).sleeps = [] ∧
      (Structured_call (.record [("a", .other n)]) .string mst instr inp trs).outcome =
        .error ("unsupported datatype=" ++ n)) ∧
    ((Structured_call .string (.record [("a", .other n)]) mst instr inp trs).attempts = 0 ∧
      (Structured_call .string (.record [("a", .other n)]) mst instr inp trs).sleeps = [] ∧
      (Structured_call .string (.record [("a", .other n)]) mst instr inp trs).outcome =
        .error ("unsupported datatype=" ++ n)) :=
  ⟨rfl, rfl, ⟨rfl, rfl, rfl⟩, ⟨rfl, rfl, rfl⟩⟩

/-- C7: `Structured` extracts the `output` field of the decoded response and
coerces it into the declared output shape — strict field-by-field
parse/validate for a model-style type (failing when a required field is
absent or mis-typed), structural field-by-field coercion for a plain record
type — and both the synchronous and asynchronous entry points do so, handling
nested records and sequences of records recursively. -/
theorem C7_structured_output_coercion
    (inS outS : SchemaType) (mst : Bool) (instr : String) (inp raw : JValue)
    (fi fo : FlatValue) (respFields : List (String × JValue)) (session : Option Bool)
    (hIn : flatten_model inS = .ok fi) (hOut : flatten_model outS = .ok fo)
    (hresp : respFields.lookup "output" = some raw) :
    ((Structured_call inS outS mst instr inp
        (fun _ => some (.obj respFields))).outcome =
      (if mst then coerce_strict outS raw else coerce_structural outS raw)) ∧
    ((Structured_runAsync inS outS mst instr inp
        (fun _ => some (.obj respFields)) session).2 =
      (if mst then coerce_strict outS raw else coerce_structural outS raw)) ∧
    coerce_strict (.record [("a", .int)]) (.obj []) =
      .error "CoercionError: missing field a" ∧
    coerce_strict (.record [("a", .int)]) (.obj [("a", .str "x")]) =
      .error "CoercionError" ∧
    coerce_strict (.record [("address", .record [("city", .string)])])
        (.obj [("address", .obj [("city", .str "Paris")])]) =
      .ok (.obj [("address", .obj [("city", .str "Paris")])]) ∧
    coerce_strict (.list (.record [("x", .int)]))
        (.arr [.obj [("x", .num 1)], .obj [("x", .num 2)]]) =
      .ok (.arr [.obj [("x", .num 1)], .obj [("x", .num 2)]]) ∧
    coerce_structural (.record [("address", .record [("city", .string)])])
        (.obj [("address", .obj [("city", .str "Paris")])]) =
      .ok (.obj [("address", .obj [("city", .str "Paris")])]) ∧
    coerce_structural (.list (.record [("x", .int)]))
        (.arr [.obj [("x", .num 1)], .obj [("x", .num 2)]]) =
      .ok (.arr [.obj [("x", .num 1)], .obj [("x", .num 2)]]) := by
  refine ⟨?_, ?_, rfl, rfl, rfl, rfl, rfl, rfl⟩
  · rw [Structured_call, structured_payload_sync, hIn, hOut]
    simp only [JValue.getOutput, hresp]
  · rw [Structured_runAsync.eq_def, structured_payload_async, hIn, hOut]
    simp only [JValue.getOutput, hresp]

/-- Witness for C7 at a concrete schema, response and session. -/
theorem C7_structured_witness :
    (Structured_call .string (.record [("city", .string)]) true "extract" .null
        (fun _ => some (.obj [("output", .obj [("city", .str "Paris")])]))).outcome =
      .ok (.obj [("city", .str "Paris")]) := by
  have h := C7_structured_output_coercion .string (.record [("city", .string)]) true
    "extract" .null (.obj [("city", .str "Paris")]) (.tag "string")
    (.fields [("city", .tag "string")])
    [("output", .obj [("city", .str "Paris")])] none rfl rfl rfl
  rw [h.1]
  rfl

/-- C9 counterexample: resolving an unknown capability name indeed returns a
reference with no invoker bound and logs the valid identifiers without
throwing, but a subsequent call on that reference raises the Python
TypeError (NoneType object is not callable), and `run_async` an
AttributeError — there is no `UnboundCapabilityError` anywhere in the
code, so the error the claim names is not the one raised. -/
theorem C9_counterexample_no_unbound_capability_error :
    (Capability.postInit "multi/bogus").1.bound = none ∧
    (Capability.postInit "multi/bogus").1.call =
      .error "TypeError: NoneType object is not callable" ∧
    "TypeError: NoneType object is not callable" ≠ "UnboundCapabilityError" := by
  refine ⟨rfl, rfl, by decide⟩

/-- C9 (amended): resolving an unknown capability name does not throw at
resolution time — it logs the list of valid identifiers and returns a
capability reference with nothing bound — and any subsequent `__call__` or
`run_async` on that reference fails with an error (a `TypeError` /
`AttributeError` on `None`, there being no `UnboundCapabilityError` class in
the code) rather than silently no-opping; a known name resolves to its
invoker with no logging. -/
theorem C9_amended_unbound_reference_fails (uri : String)
    (hmiss : _CAPABILITIES.lookup uri = none) :
    (Capability.postInit uri).1.bound = none ∧
    (Capability.postInit uri).2 =
      ("Capability lookup failed for uri=" ++ uri ++ ".\nValid URIs are:") ::
        ["  multi/summarize", "  multi/document_qa", "  multi/sql",
         "  multi/search", "  multi/structured", "  multi/web_content"] ∧
    (Capability.postInit uri).1.call =
      .error "TypeError: NoneType object is not callable" ∧
    (Capability.postInit uri).1.runAsyncDispatch =
      .error "AttributeError: NoneType object has no attribute run_async" ∧
    (Capability.postInit "multi/summarize").1.bound = some .summarize ∧
    (Capability.postInit "multi/summarize").2 = [] := by
  rw [Capability.postInit, hmiss]
  exact ⟨rfl, rfl, rfl, rfl, rfl, rfl⟩

/-- Witness for the amended C9 at the unknown name `multi/bogus`. -/
theorem C9_amended_witness :
    (Capability.postInit "multi/bogus").1.call =
      .error "TypeError: NoneType object is not callable" :=
  (C9_amended_unbound_reference_fails "multi/bogus" rfl).2.2.1

/-- C10: the synchronous entry point of WebContent applies full readable-content
extraction to the returned HTML while the asynchronous one applies summary
extraction; both issue the same request to the separate browserless rendering
endpoint authenticated by the `token` query parameter (no `api-key` header),
consume the body as HTML text rather than JSON, and apply no retry policy
(one attempt, no backoff, whatever the transport does). -/
theorem C10_webcontent_asymmetry (url : String) (browserlessKey : Option String)
    (transport : WebRequest → Option String) (session : Option Unit) :
    (WebContent_call url browserlessKey transport).request =
      webContent_request url browserlessKey ∧
    (WebContent_runAsync url browserlessKey transport session).request =
      webContent_request url browserlessKey ∧
    (webContent_request url browserlessKey).base =
      "https://chrome.browserless.io/content" ∧
    (webContent_request url browserlessKey).tokenParam = browserlessKey ∧
    ((webContent_request url browserlessKey).headers).lookup "api-key" = none ∧
    (WebContent_call url browserlessKey transport).decode = .htmlText ∧
    (WebContent_runAsync url browserlessKey transport session).decode = .htmlText ∧
    (WebContent_call url browserlessKey transport).attempts = 1 ∧
    (WebContent_call url browserlessKey transport).sleeps = [] ∧
    (WebContent_runAsync url browserlessKey transport session).attempts = 1 ∧
    (WebContent_runAsync url browserlessKey transport session).sleeps = [] ∧
    (∀ html, transport (webContent_request url browserlessKey) = some html →
      (WebContent_call url browserlessKey transport).outcome =
        .ok (.fullContent, html) ∧
      (WebContent_runAsync url browserlessKey transport session).outcome =
        .ok (.summary, html)) := by
  cases session with
  | none =>
    refine ⟨rfl, rfl, rfl, rfl, rfl, rfl, rfl, rfl, rfl, rfl, rfl, ?_⟩
    intro html h
    constructor
    · rw [WebContent_call]
      simp only [h]
    · rw [WebContent_runAsync, WebContent_runAsyncWith]
      simp only [h]
  | some u =>
    refine ⟨rfl, rfl, rfl, rfl, rfl, rfl, rfl, rfl, rfl, rfl, rfl, ?_⟩
    intro html h
    constructor
    · rw [WebContent_call]
      simp only [h]
    · rw [WebContent_runAsync, WebContent_runAsyncWith]
      simp only [h]

/-- Witness for C10 at a concrete URL, key and transport. -/
theorem C10_webcontent_witness :
    (WebContent_call "https://example.com" (some "k") (fun _ => some "<p>hi</p>")).outcome =
      .ok (.fullContent, "<p>hi</p>") ∧
    (WebContent_runAsync "https://example.com" (some "k")
        (fun _ => some "<p>hi</p>") none).outcome = .ok (.summary, "<p>hi</p>") :=
  (C10_webcontent_asymmetry "https://example.com" (some "k")
    (fun _ => some "<p>hi</p>") none).2.2.2.2.2.2.2.2.2.2.2 "<p>hi</p>" rfl
